import Mathlib

/-!
Shallow embedding of the procedural-texture core of the liquid-glass
component (src/src/glass.vue): the scalar clamp helpers, the SDF library,
the displacement-map generator, the edge-ring alpha-mask generator, the
recompute controller step and the derived box-shadow value.

Modelling conventions:
  - finite JS doubles are modelled as exact rationals wherever the code is
    pure field arithmetic (clamps, rounding, the controller, the raster
    encoding passes); the square-root based SDF evaluations are modelled
    over the reals;
  - the canvas DPI field is the constant 1 in the source (canvasDpi = 1),
    so multiplications by it are elided;
  - a data URL produced from a canvas is modelled as the triple
    (width, height, pixel bytes), since PNG encoding is deterministic in
    the bitmap.
-/

section ScalarHelpers

variable {K : Type*} [LinearOrderedField K] [FloorRing K]

/-- Function clamp01 of glass.vue: restrict a value to the interval [0, 1]. -/
def clamp01 (value : K) : K := max 0 (min 1 value)

/-- Function clampByte of glass.vue: JS Math.round (floor of value + 1/2)
followed by restriction to an integer in [0, 255]. -/
def clampByte (value : K) : ℤ := max 0 (min 255 ⌊value + 1 / 2⌋)

/-- Function smoothStep of glass.vue: shader-style cubic Hermite
interpolation with the input clamped to [0, 1]. -/
def smoothStep (a b t : K) : K :=
  let normalized := clamp01 ((t - a) / (b - a))
  normalized * normalized * (3 - 2 * normalized)

/-- Function rectSdfLInf of glass.vue: Chebyshev (L-infinity) distance
field of an axis-aligned rectangle. -/
def rectSdfLInf (x y halfWidth halfHeight : K) : K :=
  max (|x| - halfWidth) (|y| - halfHeight)

/-- JS Math.round: floor of the value plus one half. -/
def jsRound (q : ℚ) : ℤ := ⌊q + 1 / 2⌋

/-- Dimension resolution used by both generators and the controller:
Math.max(1, Math.round(v)) (the DPI factor is 1). -/
def resolveDim (q : ℚ) : ℕ := (max 1 (jsRound q)).toNat

end ScalarHelpers

/-- Function length2 of glass.vue: Euclidean length of a 2D vector. -/
noncomputable def length2 (x y : ℝ) : ℝ := Real.sqrt (x * x + y * y)

/-- Function roundedRectSdf of glass.vue: signed distance field of a
rounded axis-aligned rectangle. -/
noncomputable def roundedRectSdf (x y halfWidth halfHeight radius : ℝ) : ℝ :=
  let qx := |x| - halfWidth + radius
  let qy := |y| - halfHeight + radius
  min (max qx qy) 0 + length2 (max qx 0) (max qy 0) - radius

/-- Function ellipseSdfApprox of glass.vue: first-order implicit-surface
distance approximation for an ellipse; both radii are floored at 1e-6 and
the exact-center case returns the negated shorter floored radius. -/
noncomputable def ellipseSdfApprox (x y radiusX radiusY : ℝ) : ℝ :=
  let a := max (1 / 1000000) radiusX
  let b := max (1 / 1000000) radiusY
  let px := |x|
  let py := |y|
  if px < 1 / 1000000 ∧ py < 1 / 1000000 then -(min a b)
  else
    let invA := 1 / a
    let invB := 1 / b
    let nx := px * invA
    let ny := py * invB
    let f := nx * nx + ny * ny - 1
    let gx := px * invA * invA
    let gy := py * invB * invB
    let grad := 2 * max (1 / 1000000) (Real.sqrt (gx * gx + gy * gy))
    f / grad

/-- Interface Vec2 of glass.vue, generalised over the scalar type. -/
structure Vec2 (α : Type*) where
  x : α
  y : α

/-- Interface BorderRadiiPx of glass.vue. -/
structure BorderRadiiPx where
  rx : ℚ
  ry : ℚ
deriving DecidableEq

/-- RGBA byte quadruple written for one pixel of a generated raster. -/
structure RGBA where
  r : ℤ
  g : ℤ
  b : ℤ
  a : ℤ
deriving DecidableEq

section DisplacementGenerator

/-- Raw x offset of the first raster pass of DisplacementMapGenerator
.generate: dx = fragment(uv).x * w - x at pixel (x, y). -/
def rawDx (w h : ℕ) (fragment : Vec2 ℚ → Vec2 ℚ) (x y : ℕ) : ℚ :=
  (fragment ⟨(x : ℚ) / w, (y : ℚ) / h⟩).x * w - x

/-- Raw y offset of the first raster pass of DisplacementMapGenerator
.generate: dy = fragment(uv).y * h - y at pixel (x, y). -/
def rawDy (w h : ℕ) (fragment : Vec2 ℚ → Vec2 ℚ) (x y : ℕ) : ℚ :=
  (fragment ⟨(x : ℚ) / w, (y : ℚ) / h⟩).y * h - y

/-- Maximum absolute raw offset accumulated by the first pass of
DisplacementMapGenerator.generate, starting from 0. -/
def genMaxScaleRaw (w h : ℕ) (fragment : Vec2 ℚ → Vec2 ℚ) : ℚ :=
  ((List.range h).flatMap fun y =>
    (List.range w).flatMap fun x =>
      [|rawDx w h fragment x y|, |rawDy w h fragment x y|]).foldl max 0

/-- Normalisation basis of DisplacementMapGenerator.generate: the maximum
absolute raw offset floored at 1. -/
def genMaxScale (w h : ℕ) (fragment : Vec2 ℚ → Vec2 ℚ) : ℚ :=
  max 1 (genMaxScaleRaw w h fragment)

/-- Border smoothing factor of the second pass of DisplacementMapGenerator
.generate: min(1, min(x, y, w - x - 1, h - y - 1) / 2). -/
def edgeFactor (w h x y : ℕ) : ℚ :=
  min 1 (min (min (x : ℚ) (y : ℚ)) (min ((w : ℚ) - x - 1) ((h : ℚ) - y - 1)) / 2)

/-- Attenuated x offset of the second pass: the raw offset scaled by the
border smoothing factor. -/
def smoothedDx (w h : ℕ) (fragment : Vec2 ℚ → Vec2 ℚ) (x y : ℕ) : ℚ :=
  rawDx w h fragment x y * edgeFactor w h x y

/-- Attenuated y offset of the second pass: the raw offset scaled by the
border smoothing factor. -/
def smoothedDy (w h : ℕ) (fragment : Vec2 ℚ → Vec2 ℚ) (x y : ℕ) : ℚ :=
  rawDy w h fragment x y * edgeFactor w h x y

/-- Byte encoding of one pixel by the second pass of
DisplacementMapGenerator.generate: R carries the x offset, G and B both
carry the y offset, alpha is 255. -/
def pixelBytes (w h : ℕ) (fragment : Vec2 ℚ → Vec2 ℚ) (x y : ℕ) : RGBA :=
  let maxScale := genMaxScale w h fragment
  let r := clamp01 (smoothedDx w h fragment x y / maxScale + 1 / 2)
  let g := clamp01 (smoothedDy w h fragment x y / maxScale + 1 / 2)
  ⟨clampByte (r * 255), clampByte (g * 255), clampByte (g * 255), 255⟩

/-- Full image data written by DisplacementMapGenerator.generate, row
major, four bytes per pixel. -/
def imageBytes (w h : ℕ) (fragment : Vec2 ℚ → Vec2 ℚ) : List ℤ :=
  (List.range h).flatMap fun y =>
    (List.range w).flatMap fun x =>
      [(pixelBytes w h fragment x y).r, (pixelBytes w h fragment x y).g,
       (pixelBytes w h fragment x y).b, (pixelBytes w h fragment x y).a]

/-- Interface DisplacementMapOptions of glass.vue. -/
structure DisplacementMapOptions where
  width : ℚ
  height : ℚ
  fragment : Vec2 ℚ → Vec2 ℚ

/-- Bitmap state of the shared hidden canvas owned by
DisplacementMapGenerator. -/
structure CanvasState where
  width : ℕ
  height : ℕ
  data : List ℤ

/-- Transparent-black bitmap of a freshly sized canvas. -/
def blankCanvasData (w h : ℕ) : List ℤ := List.replicate (4 * w * h) 0

/-- Assignment canvas.width := w, performed only when the width differs;
an HTML canvas resets its bitmap when a dimension is assigned. -/
def setCanvasWidth (c : CanvasState) (w : ℕ) : CanvasState :=
  if c.width = w then c else ⟨w, c.height, blankCanvasData w c.height⟩

/-- Assignment canvas.height := h, performed only when the height differs. -/
def setCanvasHeight (c : CanvasState) (h : ℕ) : CanvasState :=
  if c.height = h then c else ⟨c.width, h, blankCanvasData c.width h⟩

/-- putImageData(imageData, 0, 0) for an image whose dimensions equal the
canvas dimensions: the whole bitmap is replaced.  generate always calls it
in this configuration, the canvas having just been sized to (w, h). -/
def putImageDataFull (c : CanvasState) (iw ih : ℕ) (img : List ℤ) : CanvasState :=
  if c.width = iw ∧ c.height = ih then ⟨c.width, c.height, img⟩ else c

/-- toDataURL: deterministic encoding of the current bitmap. -/
def toDataURL (c : CanvasState) : ℕ × ℕ × List ℤ := (c.width, c.height, c.data)

/-- Method DisplacementMapGenerator.generate: size the shared canvas,
rasterise the displacement field from the options alone, write it over the
whole canvas and encode the result. -/
def generate (o : DisplacementMapOptions) (c : CanvasState) :
    CanvasState × (ℕ × ℕ × List ℤ) :=
  let w := resolveDim o.width
  let h := resolveDim o.height
  let c1 := setCanvasWidth c w
  let c2 := setCanvasHeight c1 h
  let img := imageBytes w h o.fragment
  let c3 := putImageDataFull c2 w h img
  (c3, toDataURL c3)

end DisplacementGenerator

section FragmentSetup

/-- Interface LiquidGlassFragmentParams of glass.vue. -/
structure LiquidGlassFragmentParams where
  width : ℚ
  height : ℚ
  borderRadiusPx : BorderRadiiPx
  flatAreaScale : ℚ
  edgeHardness : ℚ

/-- Scalar constants precomputed by createLiquidGlassFragment before the
per-pixel closure is returned. -/
structure FragmentSetup where
  width : ℚ
  height : ℚ
  halfWidth : ℚ
  halfHeight : ℚ
  borderRadiusRx : ℚ
  borderRadiusRy : ℚ
  isEllipse : Bool
  flatScale : ℚ
  maxInset : ℚ
  insetPx : ℚ
  innerHalfWidth : ℚ
  innerHalfHeight : ℚ
  cornerRadius : ℚ
  rawRadius : ℚ
  innerRadius : ℚ
  ringThickness : ℚ
  hardness : ℚ
  transitionPx : ℚ
  useSharpCornerMetric : Bool

/-- Prelude of function createLiquidGlassFragment of glass.vue: every
scalar computed before the returned closure, in source order. -/
def createLiquidGlassFragmentSetup (p : LiquidGlassFragmentParams) : FragmentSetup :=
  let width := max 1 p.width
  let height := max 1 p.height
  let halfWidth := width / 2
  let halfHeight := height / 2
  let borderRadiusRx := min (max 0 p.borderRadiusPx.rx) halfWidth
  let borderRadiusRy := min (max 0 p.borderRadiusPx.ry) halfHeight
  let isEllipse := decide (halfWidth - 1 / 2 ≤ borderRadiusRx) &&
    decide (halfHeight - 1 / 2 ≤ borderRadiusRy)
  let flatScale := max 0 (min 1 p.flatAreaScale)
  let maxInset := max 0 (min halfWidth halfHeight - 1)
  let insetPx := (1 - flatScale) * maxInset
  let innerHalfWidth := max 1 (halfWidth - insetPx)
  let innerHalfHeight := max 1 (halfHeight - insetPx)
  let cornerRadius := min borderRadiusRx borderRadiusRy
  let rawRadius := max 0 (cornerRadius * flatScale)
  let innerRadius := min rawRadius (min innerHalfWidth innerHalfHeight)
  let ringThickness := max 0 insetPx
  let hardness := max (1 / 10) p.edgeHardness
  let transitionPx := max 1 (ringThickness / hardness)
  let useSharpCornerMetric := !isEllipse && decide (innerRadius ≤ 1 / 1000)
  ⟨width, height, halfWidth, halfHeight, borderRadiusRx, borderRadiusRy,
   isEllipse, flatScale, maxInset, insetPx, innerHalfWidth, innerHalfHeight,
   cornerRadius, rawRadius, innerRadius, ringThickness, hardness,
   transitionPx, useSharpCornerMetric⟩

/-- Per-pixel closure returned by createLiquidGlassFragment of glass.vue,
over the reals (it evaluates the SDF library). -/
noncomputable def liquidGlassFragmentFn (p : LiquidGlassFragmentParams)
    (uv : Vec2 ℝ) : Vec2 ℝ :=
  let s := createLiquidGlassFragmentSetup p
  let x := (uv.x - 1 / 2) * (s.width : ℝ)
  let y := (uv.y - 1 / 2) * (s.height : ℝ)
  let distanceToInnerEdge :=
    if s.isEllipse then
      ellipseSdfApprox x y (s.innerHalfWidth : ℝ) (s.innerHalfHeight : ℝ)
    else if s.useSharpCornerMetric then
      rectSdfLInf x y (s.innerHalfWidth : ℝ) (s.innerHalfHeight : ℝ)
    else
      roundedRectSdf x y (s.innerHalfWidth : ℝ) (s.innerHalfHeight : ℝ) (s.innerRadius : ℝ)
  let displacement := smoothStep (s.transitionPx : ℝ) 0 distanceToInnerEdge
  let scaled := smoothStep 0 1 displacement
  ⟨(x * scaled + (s.halfWidth : ℝ)) / (s.width : ℝ),
   (y * scaled + (s.halfHeight : ℝ)) / (s.height : ℝ)⟩

end FragmentSetup

section EdgeRingMask

/-- Interface EdgeRingMaskOptions of glass.vue. -/
structure EdgeRingMaskOptions where
  width : ℚ
  height : ℚ
  borderRadiusPx : BorderRadiiPx
  ringWidthPx : ℚ
  innerFeatherPx : ℚ
  outerFeatherPx : ℚ

/-- Scalar prelude of AlphaMaskGenerator.generateEdgeRingMask: every
quantity computed before the per-pixel loop, in source order. -/
structure EdgeRingMaskSetup where
  w : ℕ
  h : ℕ
  ringWidthPx : ℚ
  outerFeatherPx : ℚ
  innerFeatherPx : ℚ
  halfWidth : ℚ
  halfHeight : ℚ
  outerRadiusX : ℚ
  outerRadiusY : ℚ
  outerRadius : ℚ
  isOuterEllipse : Bool
  innerHalfWidth : ℚ
  innerHalfHeight : ℚ
  innerRadiusX : ℚ
  innerRadiusY : ℚ
  innerRadius : ℚ

/-- Scalar prelude of AlphaMaskGenerator.generateEdgeRingMask (the DPI
scale is 1). -/
def edgeRingMaskSetup (o : EdgeRingMaskOptions) : EdgeRingMaskSetup :=
  let w := resolveDim o.width
  let h := resolveDim o.height
  let ringWidthPx := max 0 o.ringWidthPx
  let outerFeatherPx := max (1 / 10) o.outerFeatherPx
  let innerFeatherPx := max (1 / 10) o.innerFeatherPx
  let halfWidth := (w : ℚ) / 2 - 1 / 2
  let halfHeight := (h : ℚ) / 2 - 1 / 2
  let outerRadiusX := min (max 0 o.borderRadiusPx.rx) (max 0 halfWidth)
  let outerRadiusY := min (max 0 o.borderRadiusPx.ry) (max 0 halfHeight)
  let outerRadius := min outerRadiusX outerRadiusY
  let isOuterEllipse := decide (halfWidth - 1 / 2 ≤ outerRadiusX) &&
    decide (halfHeight - 1 / 2 ≤ outerRadiusY)
  let innerHalfWidth := max 1 (halfWidth - ringWidthPx)
  let innerHalfHeight := max 1 (halfHeight - ringWidthPx)
  let innerRadiusX := min (max 0 (outerRadiusX - ringWidthPx)) innerHalfWidth
  let innerRadiusY := min (max 0 (outerRadiusY - ringWidthPx)) innerHalfHeight
  let innerRadius := min innerRadiusX innerRadiusY
  ⟨w, h, ringWidthPx, outerFeatherPx, innerFeatherPx, halfWidth, halfHeight,
   outerRadiusX, outerRadiusY, outerRadius, isOuterEllipse, innerHalfWidth,
   innerHalfHeight, innerRadiusX, innerRadiusY, innerRadius⟩

/-- Which SDF the mask loop evaluates for a boundary level. -/
inductive SdfKind where
  | ellipse
  | sharpRect
  | roundedRect
deriving DecidableEq

/-- Branch selected for the outer boundary SDF in the mask loop. -/
def outerSdfKindOf (s : EdgeRingMaskSetup) : SdfKind :=
  if s.isOuterEllipse then SdfKind.ellipse
  else if s.outerRadius ≤ 1 / 1000 then SdfKind.sharpRect
  else SdfKind.roundedRect

/-- Branch selected for the inner (ring-inset) boundary SDF in the mask
loop; the source tests the same isOuterEllipse flag computed from the
outer radii. -/
def innerSdfKindOf (s : EdgeRingMaskSetup) : SdfKind :=
  if s.isOuterEllipse then SdfKind.ellipse
  else if s.innerRadius ≤ 1 / 1000 then SdfKind.sharpRect
  else SdfKind.roundedRect

/-- Product outerInside * outsideInner computed for one pixel of the mask
loop, before the final clamp. -/
noncomputable def edgeRingMaskRawAlpha (o : EdgeRingMaskOptions) (x y : ℕ) : ℝ :=
  let s := edgeRingMaskSetup o
  let px : ℝ := (x : ℝ) + 1 / 2 - (s.w : ℝ) / 2
  let py : ℝ := (y : ℝ) + 1 / 2 - (s.h : ℝ) / 2
  let outerSdf :=
    if s.isOuterEllipse then
      ellipseSdfApprox px py (s.halfWidth : ℝ) (s.halfHeight : ℝ)
    else if s.outerRadius ≤ 1 / 1000 then
      rectSdfLInf px py (s.halfWidth : ℝ) (s.halfHeight : ℝ)
    else
      roundedRectSdf px py (s.halfWidth : ℝ) (s.halfHeight : ℝ) (s.outerRadius : ℝ)
  let innerSdf :=
    if s.isOuterEllipse then
      ellipseSdfApprox px py (s.innerHalfWidth : ℝ) (s.innerHalfHeight : ℝ)
    else if s.innerRadius ≤ 1 / 1000 then
      rectSdfLInf px py (s.innerHalfWidth : ℝ) (s.innerHalfHeight : ℝ)
    else
      roundedRectSdf px py (s.innerHalfWidth : ℝ) (s.innerHalfHeight : ℝ) (s.innerRadius : ℝ)
  let outerInside := 1 - smoothStep 0 (s.outerFeatherPx : ℝ) outerSdf
  let outsideInner := smoothStep (-(s.innerFeatherPx : ℝ)) 0 innerSdf
  outerInside * outsideInner

/-- Alpha computed for one pixel of the mask loop: the clamped product. -/
noncomputable def edgeRingMaskAlpha (o : EdgeRingMaskOptions) (x y : ℕ) : ℝ :=
  clamp01 (edgeRingMaskRawAlpha o x y)

/-- Bytes written for one pixel of the mask: full-white RGB, the computed
alpha in the alpha channel. -/
noncomputable def edgeRingMaskPixel (o : EdgeRingMaskOptions) (x y : ℕ) : RGBA :=
  ⟨255, 255, 255, clampByte (edgeRingMaskAlpha o x y * 255)⟩

end EdgeRingMask

section Controller

/-- Interface NormalMapMeta of glass.vue: the generation key of the
displacement field. -/
structure NormalMapMeta where
  width : ℕ
  height : ℕ
  borderRadiusRxPx : ℚ
  borderRadiusRyPx : ℚ
  flatAreaScale : ℚ
  edgeHardness : ℚ
deriving DecidableEq

/-- Interface EdgeMaskMeta of glass.vue: the generation key of the edge
ring mask. -/
structure EdgeMaskMeta where
  width : ℕ
  height : ℕ
  borderRadiusRxPx : ℚ
  borderRadiusRyPx : ℚ
  ringWidthPx : ℚ
  innerFeatherPx : ℚ
  outerFeatherPx : ℚ
deriving DecidableEq

/-- Reactive state owned by the recompute controller.  A generated data
URL is modelled as the key it was generated from (the raster pipeline is
deterministic in that key); the empty-string URL is modelled as none. -/
structure ControllerState where
  svgWidth : ℕ
  svgHeight : ℕ
  borderRadiiPx : BorderRadiiPx
  normalMapUrl : Option NormalMapMeta
  edgeMaskUrl : Option EdgeMaskMeta
  lastNormalMapMeta : Option NormalMapMeta
  lastEdgeMaskMeta : Option EdgeMaskMeta
deriving DecidableEq

/-- Props consumed by scheduleResizeUpdate. -/
structure GlassPropsSub where
  edgeRingWidthPx : ℚ
  edgeInnerFeatherPx : ℚ
  flatAreaScale : ℚ
  edgeHardness : ℚ
deriving DecidableEq

/-- Result of one executed recompute frame: the new state plus whether
each generator was invoked and whether the budget warning fired. -/
structure StepResult where
  state : ControllerState
  maskGenerated : Bool
  mapGenerated : Bool
  warned : Bool

/-- Constant MAX_PIXEL_BUDGET of glass.vue. -/
def MAX_PIXEL_BUDGET : ℕ := 33000000

/-- Maximum ring inset available at a resolved size:
Math.max(0, Math.min(width, height) / 2 - 1). -/
def maxRingInset (w h : ℕ) : ℚ := max 0 ((min w h : ℚ) / 2 - 1)

/-- Edge ring width after the clamp applied by scheduleResizeUpdate:
Math.min(Math.max(0, edgeRingWidthPx), maxInset). -/
def clampedRingWidth (w h : ℕ) (raw : ℚ) : ℚ :=
  min (max 0 raw) (maxRingInset w h)

/-- Inner feather chosen by scheduleResizeUpdate: the prop clamped to the
available inset when positive, else the automatic clamp(ring * 0.9, 4, 24). -/
def chosenInnerFeather (w h : ℕ) (propInner ring : ℚ) : ℚ :=
  if 0 < propInner then min propInner (maxRingInset w h)
  else max 4 (min 24 (ring * (9 / 10)))

/-- Body of the animation-frame callback of scheduleResizeUpdate of
glass.vue, as a pure state transition.  Both generators are assumed
mounted (the component creates them in onMounted before observing).
measuredRadii stands for the value read back from the computed style. -/
def scheduleResizeUpdateRun (p : GlassPropsSub) (measuredRadii : BorderRadiiPx)
    (nextWidth nextHeight : ℚ) (force : Bool) (s : ControllerState) : StepResult :=
  let w := resolveDim nextWidth
  let h := resolveDim nextHeight
  let nextMeta : NormalMapMeta :=
    ⟨w, h, measuredRadii.rx, measuredRadii.ry, p.flatAreaScale, p.edgeHardness⟩
  let base : ControllerState :=
    { s with svgWidth := w, svgHeight := h, borderRadiiPx := measuredRadii }
  if MAX_PIXEL_BUDGET < w * h then
    ⟨{ base with
        edgeMaskUrl := none
        lastEdgeMaskMeta := none
        normalMapUrl := none
        lastNormalMapMeta := none }, false, false, true⟩
  else
    let ringWidthPx := clampedRingWidth w h p.edgeRingWidthPx
    let afterMask : ControllerState × Bool :=
      if ringWidthPx ≤ 0 then
        ({ base with edgeMaskUrl := none, lastEdgeMaskMeta := none }, false)
      else
        let innerFeatherPx := chosenInnerFeather w h p.edgeInnerFeatherPx ringWidthPx
        let outerFeatherPx : ℚ := 3 / 2
        let nextMaskMeta : EdgeMaskMeta :=
          ⟨w, h, measuredRadii.rx, measuredRadii.ry, ringWidthPx,
           innerFeatherPx, outerFeatherPx⟩
        if s.lastEdgeMaskMeta ≠ some nextMaskMeta ∨ s.edgeMaskUrl = none then
          ({ base with
              edgeMaskUrl := some nextMaskMeta
              lastEdgeMaskMeta := some nextMaskMeta }, true)
        else (base, false)
    if force = false ∧ s.lastNormalMapMeta = some nextMeta ∧ s.normalMapUrl ≠ none then
      ⟨afterMask.1, afterMask.2, false, false⟩
    else
      ⟨{ afterMask.1 with
          normalMapUrl := some nextMeta
          lastNormalMapMeta := some nextMeta }, afterMask.2, true, false⟩

/-- State of a freshly mounted controller: no generated resources. -/
def initState : ControllerState := ⟨1, 1, ⟨0, 0⟩, none, none, none, none⟩

end Controller

section Shadow

/-- Numeric components of the derived box-shadow string of
createGlassContainerShadow: offset-y, blur radius and rgba alpha (the
string renders y and blur to one decimal and alpha to three; the numeric
content is modelled exactly).  none models the literal string none. -/
structure ShadowSpec where
  yPx : ℚ
  blurPx : ℚ
  alpha : ℚ
deriving DecidableEq

/-- Function createGlassContainerShadow of glass.vue (a non-finite level
falls back to 1 before this arithmetic; rationals are always finite). -/
def createGlassContainerShadow (level : ℚ) : Option ShadowSpec :=
  let safeLevel := max 0 level
  if safeLevel ≤ 0 then none
  else some ⟨max 0 (18 * safeLevel), max 0 (60 * safeLevel),
    clamp01 (35 / 100 * safeLevel)⟩

end Shadow

/-- Concrete quadratic fragment used as a test input for the displacement
encoding pass. -/
def fragSq : Vec2 ℚ → Vec2 ℚ := fun uv => ⟨uv.x * uv.x, uv.y⟩

/-- Channel encoding asserted by the specification text for claim C1:
clampByte(255 * (offset / maxOffset / 2 + 0.5)).  Modelled from the spec
wording, for comparison against the source encoding. -/
def specChannelByteClaim (off maxOff : ℚ) : ℤ :=
  clampByte (255 * (off / maxOff / 2 + 1 / 2))

/-- Channel encoding with the halving removed:
clampByte(255 * (offset / maxOffset + 0.5)). -/
def specChannelByteFixed (off maxOff : ℚ) : ℤ :=
  clampByte (255 * (off / maxOff + 1 / 2))

/-- Inset asserted by the specification text for claim C3:
(1 - flatAreaScale) * min(halfW, halfH), capped at min(halfW, halfH) - 1.
Modelled from the spec wording, for comparison against the source. -/
def specClaimInset (s halfW halfH : ℚ) : ℚ :=
  min ((1 - s) * min halfW halfH) (min halfW halfH - 1)

/-- Transition width asserted by the specification text for claim C8:
max(1, inset / edgeHardness).  Modelled from the spec wording. -/
def specClaimTransition (inset hardness : ℚ) : ℚ :=
  max 1 (inset / hardness)

/-- Transition width actually computed by createLiquidGlassFragment:
max(1, max(0, inset) / max(0.1, hardness)). -/
def transitionWidth (inset hardness : ℚ) : ℚ :=
  max 1 (max 0 inset / max (1 / 10) hardness)

section Clamp01Lemmas

variable {K : Type*} [LinearOrderedField K]

theorem clamp01_nonneg (v : K) : 0 ≤ clamp01 v := le_max_left 0 _

theorem clamp01_le_one (v : K) : clamp01 v ≤ 1 :=
  max_le zero_le_one (min_le_left 1 v)

end Clamp01Lemmas

section HelperLemmas

variable {K : Type*} [LinearOrderedField K] [FloorRing K]

theorem clampByte_nonneg (v : K) : 0 ≤ clampByte v := le_max_left 0 _

theorem clampByte_le_byteMax (v : K) : clampByte v ≤ 255 :=
  max_le (by norm_num) (min_le_left _ _)

/-- Saturation collapse: byte-clamping 255 times the [0,1]-clamped value
equals byte-clamping 255 times the raw value, because clampByte saturates
at the same endpoints. -/
theorem clampByte_clamp01_mul (v : K) :
    clampByte (clamp01 v * 255) = clampByte (255 * v) := by
  have hhalf : ⌊(1 / 2 : K)⌋ = 0 := by
    rw [Int.floor_eq_zero_iff]
    constructor <;> norm_num
  unfold clampByte clamp01
  rcases le_total v 0 with hv | hv
  · have h0 : max 0 (min 1 v) = 0 := max_eq_left ((min_le_right 1 v).trans hv)
    have hf : ⌊(255 : K) * v + 1 / 2⌋ ≤ 0 := by
      calc ⌊(255 : K) * v + 1 / 2⌋ ≤ ⌊(1 / 2 : K)⌋ :=
            Int.floor_le_floor (by nlinarith)
        _ = 0 := hhalf
    rw [h0, zero_mul, zero_add, hhalf]
    rw [min_eq_right (hf.trans (by norm_num)), max_eq_left hf]
    simp
  · rcases le_total 1 v with hv1 | hv1
    · have h1 : max 0 (min 1 v) = 1 := by
        rw [min_eq_left hv1]
        exact max_eq_right zero_le_one
      have h255 : ⌊(1 : K) * 255 + 1 / 2⌋ = 255 := by
        rw [one_mul, Int.floor_eq_iff]; push_cast; norm_num
      have hf : (255 : ℤ) ≤ ⌊(255 : K) * v + 1 / 2⌋ := by
        rw [Int.le_floor]
        push_cast
        nlinarith
      rw [h1, h255, min_eq_left hf, min_self]
    · have hmid : max 0 (min 1 v) = v := by
        rw [min_eq_right hv1]
        exact max_eq_right hv
      rw [hmid, mul_comm]

end HelperLemmas

/-- Claim C9, counterexample: the spec asserts
ellipseSDFApprox(0,0,rx,ry) = -min(rx,ry) for all rx, ry > 0, but the
source floors both radii at 1e-6 first, so rx = 1e-7 with ry = 1 returns
-1e-6 rather than -1e-7. -/
theorem c9_counterexample :
    (0 : ℝ) < 1 / 10000000 ∧ (0 : ℝ) < 1 ∧
    ellipseSdfApprox 0 0 (1 / 10000000) 1 ≠ -(min (1 / 10000000 : ℝ) 1) := by
  refine ⟨by norm_num, by norm_num, ?_⟩
  simp only [ellipseSdfApprox]
  rw [if_pos (by norm_num : |(0 : ℝ)| < 1 / 1000000 ∧ |(0 : ℝ)| < 1 / 1000000)]
  rw [max_eq_left (by norm_num : (1 / 10000000 : ℝ) ≤ 1 / 1000000)]
  rw [max_eq_right (by norm_num : (1 / 1000000 : ℝ) ≤ 1)]
  rw [min_eq_left (by norm_num : (1 / 1000000 : ℝ) ≤ 1)]
  rw [min_eq_left (by norm_num : (1 / 10000000 : ℝ) ≤ 1)]
  norm_num

/-- Claim C9 (corrected): at the exact center the ellipse SDF
approximation returns -min(rx, ry) for all radii at or above the 1e-6
floor applied by the source (for smaller positive radii the floored value
is used instead). -/
theorem c9_amended (rx ry : ℝ) (hrx : 1 / 1000000 ≤ rx) (hry : 1 / 1000000 ≤ ry) :
    ellipseSdfApprox 0 0 rx ry = -(min rx ry) := by
  simp only [ellipseSdfApprox]
  rw [if_pos (by norm_num : |(0 : ℝ)| < 1 / 1000000 ∧ |(0 : ℝ)| < 1 / 1000000)]
  rw [max_eq_right hrx, max_eq_right hry]

theorem c9_amended_witness :
    (1 / 1000000 : ℝ) ≤ 1 ∧ ellipseSdfApprox 0 0 1 1 = -(min (1 : ℝ) 1) :=
  ⟨by norm_num, c9_amended 1 1 (by norm_num) (by norm_num)⟩

/-- Claim C7, counterexample: the spec asserts the rgba alpha equals
0.35 * level for every finite level > 0, but the source clamps the alpha
to [0, 1]; at level 3 the code yields alpha 1 while 0.35 * 3 is not 1. -/
theorem c7_counterexample :
    createGlassContainerShadow 3 = some ⟨54, 180, 1⟩ ∧ (35 / 100 : ℚ) * 3 ≠ 1 := by
  constructor
  · norm_num [createGlassContainerShadow, clamp01, max_def, min_def]
  · norm_num

/-- Claim C7 (corrected): for every finite level > 0 the derived shadow
components are y = 18 * level, blur = 60 * level and alpha =
min(1, 0.35 * level) (the alpha is clamped to [0, 1]; the emitted string
rounds y and blur to one decimal and alpha to three). -/
theorem c7_amended (level : ℚ) (hl : 0 < level) :
    createGlassContainerShadow level =
      some ⟨18 * level, 60 * level, min 1 (35 / 100 * level)⟩ := by
  simp only [createGlassContainerShadow]
  rw [max_eq_right hl.le]
  rw [if_neg (not_le.mpr hl)]
  have h18 : max 0 (18 * level) = 18 * level := max_eq_right (by positivity)
  have h60 : max 0 (60 * level) = 60 * level := max_eq_right (by positivity)
  have ha : clamp01 (35 / 100 * level) = min 1 (35 / 100 * level) := by
    unfold clamp01
    exact max_eq_right (le_min zero_le_one (by positivity))
  rw [h18, h60, ha]

theorem c7_amended_witness :
    (0 : ℚ) < 1 ∧
    createGlassContainerShadow 1 = some ⟨18 * 1, 60 * 1, min 1 (35 / 100 * 1)⟩ :=
  ⟨by norm_num, c7_amended 1 (by norm_num)⟩

/-- Claim C3, counterexample: the spec asserts the flat-zone inset is
(1 - flatAreaScale) * min(halfW, halfH) capped at min(halfW, halfH) - 1,
but the source subtracts the 1px margin from the basis before scaling; at
a 20 x 20 container with flatAreaScale = 1/2 the code computes 4.5 while
the spec formula gives 5. -/
theorem c3_counterexample :
    (createLiquidGlassFragmentSetup ⟨20, 20, ⟨0, 0⟩, 1 / 2, 1 / 2⟩).insetPx ≠
      specClaimInset (1 / 2)
        (createLiquidGlassFragmentSetup ⟨20, 20, ⟨0, 0⟩, 1 / 2, 1 / 2⟩).halfWidth
        (createLiquidGlassFragmentSetup ⟨20, 20, ⟨0, 0⟩, 1 / 2, 1 / 2⟩).halfHeight := by
  norm_num [createLiquidGlassFragmentSetup, specClaimInset, max_def, min_def]

/-- Claim C3 (corrected): for every container size and flatAreaScale in
[0, 1], the flat-zone inset equals (1 - flatAreaScale) * max(0,
min(halfW, halfH) - 1): the 1px cap is applied to the basis before the
scale factor, not to the product. -/
theorem c3_amended (p : LiquidGlassFragmentParams) (h0 : 0 ≤ p.flatAreaScale)
    (h1 : p.flatAreaScale ≤ 1) :
    (createLiquidGlassFragmentSetup p).insetPx =
      (1 - p.flatAreaScale) *
        max 0 (min (createLiquidGlassFragmentSetup p).halfWidth
          (createLiquidGlassFragmentSetup p).halfHeight - 1) := by
  simp only [createLiquidGlassFragmentSetup]
  rw [min_eq_right h1, max_eq_right h0]

theorem c3_amended_witness :
    (0 : ℚ) ≤ 1 / 2 ∧ (1 / 2 : ℚ) ≤ 1 ∧
    (createLiquidGlassFragmentSetup ⟨20, 20, ⟨0, 0⟩, 1 / 2, 1 / 2⟩).insetPx =
      (1 - (1 / 2 : ℚ)) *
        max 0 (min (createLiquidGlassFragmentSetup ⟨20, 20, ⟨0, 0⟩, 1 / 2, 1 / 2⟩).halfWidth
          (createLiquidGlassFragmentSetup ⟨20, 20, ⟨0, 0⟩, 1 / 2, 1 / 2⟩).halfHeight - 1) :=
  ⟨by norm_num, by norm_num,
   c3_amended ⟨20, 20, ⟨0, 0⟩, 1 / 2, 1 / 2⟩ (by norm_num) (by norm_num)⟩

/-- Claim C8, counterexample: the spec asserts the transition width equals
max(1, inset / edgeHardness), but the source floors the hardness at 0.1
first; with inset 1 and edgeHardness 0.05 the code computes 10 while the
spec formula gives 20. -/
theorem c8_counterexample :
    (createLiquidGlassFragmentSetup ⟨20, 20, ⟨0, 0⟩, 8 / 9, 1 / 20⟩).transitionPx ≠
      specClaimTransition
        (createLiquidGlassFragmentSetup ⟨20, 20, ⟨0, 0⟩, 8 / 9, 1 / 20⟩).insetPx
        (1 / 20) := by
  norm_num [createLiquidGlassFragmentSetup, specClaimTransition, max_def, min_def]

/-- Claim C8 (corrected): the transition width equals
max(1, max(0, inset) / max(0.1, edgeHardness)) (the hardness is floored at
0.1), and for hardness values 0 < h1 < h2 the width at h2 is at most the
width at h1, with equality only when the 1px floor or the 0.1 hardness
floor is active. -/
theorem c8_amended :
    (∀ p : LiquidGlassFragmentParams,
      (createLiquidGlassFragmentSetup p).transitionPx =
        transitionWidth (createLiquidGlassFragmentSetup p).insetPx p.edgeHardness) ∧
    (∀ inset hard1 hard2 : ℚ, 0 < hard1 → hard1 < hard2 →
      transitionWidth inset hard2 ≤ transitionWidth inset hard1 ∧
      (transitionWidth inset hard2 = transitionWidth inset hard1 →
        transitionWidth inset hard1 = 1 ∨ hard2 ≤ 1 / 10)) := by
  constructor
  · intro p
    rfl
  · intro inset hard1 hard2 hpos h12
    simp only [transitionWidth]
    have hi0 : (0 : ℚ) ≤ max 0 inset := le_max_left 0 inset
    have hm1 : (0 : ℚ) < max (1 / 10) hard1 :=
      lt_of_lt_of_le (by norm_num) (le_max_left _ _)
    have hm2 : (0 : ℚ) < max (1 / 10) hard2 :=
      lt_of_lt_of_le (by norm_num) (le_max_left _ _)
    have hm12 : max (1 / 10 : ℚ) hard1 ≤ max (1 / 10) hard2 :=
      max_le_max le_rfl h12.le
    have hdiv : max 0 inset / max (1 / 10) hard2 ≤ max 0 inset / max (1 / 10) hard1 := by
      rw [div_le_div_iff₀ hm2 hm1]
      exact mul_le_mul_of_nonneg_left hm12 hi0
    refine ⟨max_le_max le_rfl hdiv, ?_⟩
    intro heq
    by_cases hone : max 1 (max 0 inset / max (1 / 10) hard1) = 1
    · exact Or.inl hone
    right
    by_contra hh2
    push_neg at hh2
    have h1lt : 1 < max 0 inset / max (1 / 10) hard1 := by
      rcases lt_or_le 1 (max 0 inset / max (1 / 10) hard1) with h | h
      · exact h
      · exact absurd (max_eq_left h) hone
    have h2lt : 1 < max 0 inset / max (1 / 10) hard2 := by
      rcases lt_or_le 1 (max 0 inset / max (1 / 10) hard2) with h | h
      · exact h
      · rw [max_eq_left h] at heq
        exact absurd heq.symm hone
    have heq2 : max 0 inset / max (1 / 10) hard2 = max 0 inset / max (1 / 10) hard1 := by
      rw [max_eq_right h2lt.le, max_eq_right h1lt.le] at heq
      exact heq
    have hipos : (0 : ℚ) < max 0 inset :=
      hm1.trans ((one_lt_div hm1).mp h1lt)
    have hmm : max (1 / 10 : ℚ) hard1 = max (1 / 10) hard2 := by
      rw [div_eq_div_iff hm2.ne' hm1.ne'] at heq2
      exact mul_left_cancel₀ (ne_of_gt hipos) heq2
    have hm2h2 : max (1 / 10 : ℚ) hard2 = hard2 := max_eq_right hh2.le
    rcases max_choice (1 / 10 : ℚ) hard1 with hc | hc
    · rw [hc, hm2h2] at hmm
      linarith
    · rw [hc, hm2h2] at hmm
      linarith

theorem c8_amended_witness :
    (0 : ℚ) < 1 ∧ (1 : ℚ) < 3 ∧
    transitionWidth 9 3 ≤ transitionWidth 9 1 ∧
    (transitionWidth 9 3 = transitionWidth 9 1 →
      transitionWidth 9 1 = 1 ∨ (3 : ℚ) ≤ 1 / 10) :=
  ⟨by norm_num, by norm_num, (c8_amended.2 9 1 3 (by norm_num) (by norm_num)).1,
   (c8_amended.2 9 1 3 (by norm_num) (by norm_num)).2⟩

/-- Claim C2, counterexample (negation of the claimed existential): there
is no input for which the inner boundary takes the ellipse SDF branch
while the outer boundary does not, because generateEdgeRingMask computes a
single isOuterEllipse flag from the outer radii and tests that same flag
for both levels. -/
theorem c2_counterexample :
    ¬ ∃ o : EdgeRingMaskOptions,
      innerSdfKindOf (edgeRingMaskSetup o) = SdfKind.ellipse ∧
      outerSdfKindOf (edgeRingMaskSetup o) ≠ SdfKind.ellipse := by
  rintro ⟨o, hin, hout⟩
  by_cases hb : (edgeRingMaskSetup o).isOuterEllipse
  · exact hout (by simp [outerSdfKindOf, hb])
  · rw [innerSdfKindOf, if_neg hb] at hin
    split_ifs at hin

/-- Claim C2 (corrected): in generateRingMask the ellipse case is decided
once, from the outer radii against the outer half-extents, and that single
flag selects the SDF branch at both levels: the inner (ring-inset)
boundary is treated as an ellipse exactly when the outer boundary is,
never independently. -/
theorem c2_amended (o : EdgeRingMaskOptions) :
    innerSdfKindOf (edgeRingMaskSetup o) = SdfKind.ellipse ↔
    outerSdfKindOf (edgeRingMaskSetup o) = SdfKind.ellipse := by
  by_cases hb : (edgeRingMaskSetup o).isOuterEllipse
  · simp [innerSdfKindOf, outerSdfKindOf, hb]
  · rw [innerSdfKindOf, if_neg hb, outerSdfKindOf, if_neg hb]
    constructor
    · intro hin
      split_ifs at hin
    · intro hout
      split_ifs at hout

/-- Claim C4 (confirmed): whenever the resolved width times height
exceeds the 33,000,000 pixel budget, the executed recompute frame clears
both resources to the absent state, invokes neither generator, and fires
the console warning (the function returns normally: a degrade, not an
error). -/
theorem c4_budget_degrade (p : GlassPropsSub) (radii : BorderRadiiPx)
    (nextWidth nextHeight : ℚ) (force : Bool) (s : ControllerState)
    (hbudget : MAX_PIXEL_BUDGET < resolveDim nextWidth * resolveDim nextHeight) :
    (scheduleResizeUpdateRun p radii nextWidth nextHeight force s).state.normalMapUrl = none ∧
    (scheduleResizeUpdateRun p radii nextWidth nextHeight force s).state.edgeMaskUrl = none ∧
    (scheduleResizeUpdateRun p radii nextWidth nextHeight force s).maskGenerated = false ∧
    (scheduleResizeUpdateRun p radii nextWidth nextHeight force s).mapGenerated = false ∧
    (scheduleResizeUpdateRun p radii nextWidth nextHeight force s).warned = true := by
  simp only [scheduleResizeUpdateRun]
  rw [if_pos hbudget]
  simp

theorem c4_budget_degrade_witness :
    MAX_PIXEL_BUDGET < resolveDim 6000 * resolveDim 6000 ∧
    ((scheduleResizeUpdateRun ⟨4, 0, 64 / 100, 1 / 2⟩ ⟨0, 0⟩ 6000 6000 false
        initState).state.normalMapUrl = none ∧
     (scheduleResizeUpdateRun ⟨4, 0, 64 / 100, 1 / 2⟩ ⟨0, 0⟩ 6000 6000 false
        initState).state.edgeMaskUrl = none ∧
     (scheduleResizeUpdateRun ⟨4, 0, 64 / 100, 1 / 2⟩ ⟨0, 0⟩ 6000 6000 false
        initState).maskGenerated = false ∧
     (scheduleResizeUpdateRun ⟨4, 0, 64 / 100, 1 / 2⟩ ⟨0, 0⟩ 6000 6000 false
        initState).mapGenerated = false ∧
     (scheduleResizeUpdateRun ⟨4, 0, 64 / 100, 1 / 2⟩ ⟨0, 0⟩ 6000 6000 false
        initState).warned = true) :=
  have h6 : resolveDim 6000 = 6000 := by
    norm_num [resolveDim, jsRound]
    decide
  have hb : MAX_PIXEL_BUDGET < resolveDim 6000 * resolveDim 6000 := by
    rw [h6]
    norm_num [MAX_PIXEL_BUDGET]
  ⟨hb, c4_budget_degrade ⟨4, 0, 64 / 100, 1 / 2⟩ ⟨0, 0⟩ 6000 6000 false initState hb⟩

/-- Claim C6 (confirmed): whenever the clamped edge-ring width is 0, the
executed recompute frame never invokes generateRingMask and the edge-mask
resource is cleared to the absent state, for every container size, radii,
props and prior state. -/
theorem c6_ring_zero (p : GlassPropsSub) (radii : BorderRadiiPx)
    (nextWidth nextHeight : ℚ) (force : Bool) (s : ControllerState)
    (hring : clampedRingWidth (resolveDim nextWidth) (resolveDim nextHeight)
      p.edgeRingWidthPx = 0) :
    (scheduleResizeUpdateRun p radii nextWidth nextHeight force s).maskGenerated = false ∧
    (scheduleResizeUpdateRun p radii nextWidth nextHeight force s).state.edgeMaskUrl
      = none := by
  simp only [scheduleResizeUpdateRun]
  by_cases hbudget : MAX_PIXEL_BUDGET < resolveDim nextWidth * resolveDim nextHeight
  · rw [if_pos hbudget]
    simp
  · rw [if_neg hbudget]
    rw [if_pos (le_of_eq hring)]
    split_ifs <;> simp

theorem c6_ring_zero_witness :
    clampedRingWidth (resolveDim 100) (resolveDim 100)
      (GlassPropsSub.edgeRingWidthPx ⟨0, 0, 64 / 100, 1 / 2⟩) = 0 ∧
    ((scheduleResizeUpdateRun ⟨0, 0, 64 / 100, 1 / 2⟩ ⟨0, 0⟩ 100 100 false
        initState).maskGenerated = false ∧
     (scheduleResizeUpdateRun ⟨0, 0, 64 / 100, 1 / 2⟩ ⟨0, 0⟩ 100 100 false
        initState).state.edgeMaskUrl = none) :=
  have h100 : resolveDim 100 = 100 := by
    norm_num [resolveDim, jsRound]
    decide
  have hr : clampedRingWidth (resolveDim 100) (resolveDim 100)
      (GlassPropsSub.edgeRingWidthPx ⟨0, 0, 64 / 100, 1 / 2⟩) = 0 := by
    rw [h100]
    norm_num [clampedRingWidth, maxRingInset, max_def, min_def]
  ⟨hr, c6_ring_zero ⟨0, 0, 64 / 100, 1 / 2⟩ ⟨0, 0⟩ 100 100 false initState hr⟩

theorem setCanvasWidth_width (c : CanvasState) (w : ℕ) :
    (setCanvasWidth c w).width = w := by
  unfold setCanvasWidth
  split_ifs with hw
  · exact hw
  · rfl

theorem setCanvasHeight_width (c : CanvasState) (h : ℕ) :
    (setCanvasHeight c h).width = c.width := by
  unfold setCanvasHeight
  split_ifs <;> rfl

theorem setCanvasHeight_height (c : CanvasState) (h : ℕ) :
    (setCanvasHeight c h).height = h := by
  unfold setCanvasHeight
  split_ifs with hh
  · exact hh
  · rfl

/-- The encoded output of generate depends only on the options: the
canvas is sized to the requested dimensions, so putImageData replaces the
whole bitmap with pixels computed purely from the options. -/
theorem generate_output (o : DisplacementMapOptions) (c : CanvasState) :
    (generate o c).2 = (resolveDim o.width, resolveDim o.height,
      imageBytes (resolveDim o.width) (resolveDim o.height) o.fragment) := by
  simp only [generate, toDataURL, putImageDataFull]
  rw [if_pos ⟨by rw [setCanvasHeight_width, setCanvasWidth_width],
    setCanvasHeight_height _ _⟩]
  rw [setCanvasHeight_width, setCanvasWidth_width, setCanvasHeight_height]

/-- Claim C5 (confirmed): for one fixed set of generation options (hence
one fixed GenerationKey, the fragment being a deterministic function of
the key), generate produces identical encoded output from any two prior
canvas states, so earlier generations with other keys leave no observable
trace. -/
theorem c5_idempotent (o : DisplacementMapOptions) (c d : CanvasState) :
    (generate o c).2 = (generate o d).2 := by
  rw [generate_output, generate_output]

/-- Claim C1, counterexample: the spec halves the normalised offset
(offset / maxOffset / 2 + 0.5) but the source computes
clamp01(offset / maxOffset + 0.5); at a 3 x 3 raster with a quadratic
fragment, pixel (1, 1) encodes R = 43 while the spec formula yields 85. -/
theorem c1_counterexample :
    (pixelBytes 3 3 fragSq 1 1).r ≠
      specChannelByteClaim (smoothedDx 3 3 fragSq 1 1) (genMaxScale 3 3 fragSq) := by
  norm_num [pixelBytes, specChannelByteClaim, genMaxScale, genMaxScaleRaw, rawDx, rawDy,
    fragSq, edgeFactor, smoothedDx, smoothedDy, clamp01, clampByte,
    List.range_succ, max_def, min_def, abs]

/-- Claim C1 (corrected): for every pixel the second raster pass encodes
each channel as clampByte(255 * (offset / maxOffset + 0.5)) with no
halving, R carrying the x offset and G and B both carrying the y offset,
where each offset is first attenuated by min(1, distanceToNearestEdge / 2)
and maxOffset is the maximum absolute raw offset over the whole field
floored at 1 (the source clamps the normalised value to [0, 1] before the
byte conversion, which byte-saturates to the same result). -/
theorem c1_amended (w h : ℕ) (fragment : Vec2 ℚ → Vec2 ℚ) (x y : ℕ)
    (_hx : x < w) (_hy : y < h) :
    pixelBytes w h fragment x y =
      ⟨specChannelByteFixed (smoothedDx w h fragment x y) (genMaxScale w h fragment),
       specChannelByteFixed (smoothedDy w h fragment x y) (genMaxScale w h fragment),
       specChannelByteFixed (smoothedDy w h fragment x y) (genMaxScale w h fragment),
       255⟩ := by
  simp only [pixelBytes, specChannelByteFixed, clampByte_clamp01_mul]

theorem c1_amended_witness :
    1 < 3 ∧ 1 < 3 ∧
    pixelBytes 3 3 fragSq 1 1 =
      ⟨specChannelByteFixed (smoothedDx 3 3 fragSq 1 1) (genMaxScale 3 3 fragSq),
       specChannelByteFixed (smoothedDy 3 3 fragSq 1 1) (genMaxScale 3 3 fragSq),
       specChannelByteFixed (smoothedDy 3 3 fragSq 1 1) (genMaxScale 3 3 fragSq),
       255⟩ :=
  ⟨by norm_num, by norm_num, c1_amended 3 3 fragSq 1 1 (by norm_num) (by norm_num)⟩

/-- Claim C10 (confirmed): generateRingMask floors both feather inputs at
0.1 before use, so the two smoothstep calls have strictly separated edges
(each divisor b - a is positive, never zero), and for every pixel the
computed alpha lies in [0, 1] and is encoded as a byte in [0, 255] with
the R, G and B channels all 255. -/
theorem c10_mask_total (o : EdgeRingMaskOptions)
    (_hinner : 0 ≤ o.innerFeatherPx) (_houter : 0 ≤ o.outerFeatherPx) :
    (1 / 10 : ℚ) ≤ (edgeRingMaskSetup o).innerFeatherPx ∧
    (1 / 10 : ℚ) ≤ (edgeRingMaskSetup o).outerFeatherPx ∧
    (0 : ℚ) < (edgeRingMaskSetup o).outerFeatherPx - 0 ∧
    (0 : ℚ) < 0 - (-(edgeRingMaskSetup o).innerFeatherPx) ∧
    ∀ x y : ℕ,
      0 ≤ edgeRingMaskAlpha o x y ∧ edgeRingMaskAlpha o x y ≤ 1 ∧
      (edgeRingMaskPixel o x y).r = 255 ∧
      (edgeRingMaskPixel o x y).g = 255 ∧
      (edgeRingMaskPixel o x y).b = 255 ∧
      0 ≤ (edgeRingMaskPixel o x y).a ∧ (edgeRingMaskPixel o x y).a ≤ 255 := by
  have hif : (1 / 10 : ℚ) ≤ (edgeRingMaskSetup o).innerFeatherPx := by
    simp only [edgeRingMaskSetup]
    exact le_max_left _ _
  have hof : (1 / 10 : ℚ) ≤ (edgeRingMaskSetup o).outerFeatherPx := by
    simp only [edgeRingMaskSetup]
    exact le_max_left _ _
  refine ⟨hif, hof, by linarith, by linarith, ?_⟩
  intro x y
  refine ⟨?_, ?_, rfl, rfl, rfl, ?_, ?_⟩
  · unfold edgeRingMaskAlpha
    exact clamp01_nonneg _
  · unfold edgeRingMaskAlpha
    exact clamp01_le_one _
  · exact clampByte_nonneg _
  · exact clampByte_le_byteMax _

theorem c10_mask_total_witness :
    (0 : ℚ) ≤ EdgeRingMaskOptions.innerFeatherPx ⟨4, 4, ⟨0, 0⟩, 1, 0, 0⟩ ∧
    (0 : ℚ) ≤ EdgeRingMaskOptions.outerFeatherPx ⟨4, 4, ⟨0, 0⟩, 1, 0, 0⟩ ∧
    ((1 / 10 : ℚ) ≤ (edgeRingMaskSetup ⟨4, 4, ⟨0, 0⟩, 1, 0, 0⟩).innerFeatherPx ∧
     (1 / 10 : ℚ) ≤ (edgeRingMaskSetup ⟨4, 4, ⟨0, 0⟩, 1, 0, 0⟩).outerFeatherPx ∧
     (0 : ℚ) < (edgeRingMaskSetup ⟨4, 4, ⟨0, 0⟩, 1, 0, 0⟩).outerFeatherPx - 0 ∧
     (0 : ℚ) < 0 - (-(edgeRingMaskSetup ⟨4, 4, ⟨0, 0⟩, 1, 0, 0⟩).innerFeatherPx) ∧
     ∀ x y : ℕ,
       0 ≤ edgeRingMaskAlpha ⟨4, 4, ⟨0, 0⟩, 1, 0, 0⟩ x y ∧
       edgeRingMaskAlpha ⟨4, 4, ⟨0, 0⟩, 1, 0, 0⟩ x y ≤ 1 ∧
       (edgeRingMaskPixel ⟨4, 4, ⟨0, 0⟩, 1, 0, 0⟩ x y).r = 255 ∧
       (edgeRingMaskPixel ⟨4, 4, ⟨0, 0⟩, 1, 0, 0⟩ x y).g = 255 ∧
       (edgeRingMaskPixel ⟨4, 4, ⟨0, 0⟩, 1, 0, 0⟩ x y).b = 255 ∧
       0 ≤ (edgeRingMaskPixel ⟨4, 4, ⟨0, 0⟩, 1, 0, 0⟩ x y).a ∧
       (edgeRingMaskPixel ⟨4, 4, ⟨0, 0⟩, 1, 0, 0⟩ x y).a ≤ 255) :=
  ⟨le_refl 0, le_refl 0,
   c10_mask_total ⟨4, 4, ⟨0, 0⟩, 1, 0, 0⟩ (le_refl 0) (le_refl 0)⟩
